import Mathlib

/-!
Verification of the clipd clipboard-synchronization hub and client sync agent.

Server side (src/unnamed/part_002): connection registry, broadcast router
(runHub), clipboard store mutated in readLoop, admission (handleConnections).
Client side (src/unnamed/part_000 Update, src/client_tui/websocket.go):
the bubbletea model update function and the commands it issues.

Wire payloads decoded by json.Unmarshal into an interface value are modelled
by the JsonValue type; RemarshalData (marshal then unmarshal into a typed
struct) is modelled by encodeData followed by a typed decoder.
-/

namespace Clipd

def maxHistorySize : Nat := 20

/-- One connected endpoint as the server registry stores it.  The `conn`
field stands for the `*websocket.Conn` handle, compared by identity;
in `device_list` payloads the connection is omitted (`json:"-"`), which we
model by setting `conn := 0` in the payload copy. -/
structure ClientInfo where
  id : String
  conn : Nat
  hostname : String
deriving DecidableEq, Repr

structure ClipboardUpdateData where
  content : String
deriving DecidableEq, Repr

structure FileOfferData where
  filename : String
  filesize : Int
  targetID : String
deriving DecidableEq, Repr

structure FileAckData where
  filename : String
  allow : Bool
  sourceID : String
deriving DecidableEq, Repr

/-- A JSON value, as produced by json.Unmarshal into an untyped interface
value.  This is the dynamic type of `BaseMessage.Data` for any message that
was decoded from the wire and not re-wrapped in a typed struct. -/
inductive JsonValue where
  | str (s : String)
  | num (n : Int)
  | bool (b : Bool)
  | null
  | arr (elems : List JsonValue)
  | obj (fields : List (String × JsonValue))

/-- The dynamic type of the `Data interface` field of `BaseMessage`.
Typed constructors correspond to the Go structs placed there directly by
server or client code; `json v` is a value decoded from the wire
(a `map[string]interface` value in Go), which the hub's type switch does
NOT recognise as any of the typed structs. -/
inductive MsgData where
  | clip (d : ClipboardUpdateData)
  | history (h : List String)
  | devices (ds : List ClientInfo)
  | offer (d : FileOfferData)
  | ack (d : FileAckData)
  | json (v : JsonValue)

structure BaseMessage where
  type : String
  data : MsgData
  senderID : String

/-! ### JSON encoding (json.Marshal) of the typed payload structs -/

def encodeClientInfoJson (c : ClientInfo) : JsonValue :=
  .obj [("id", .str c.id), ("hostname", .str c.hostname)]

/-- json.Marshal of the dynamic payload value.  On an already-decoded
`json v` payload, marshalling re-serialises exactly the same value. -/
def encodeData : MsgData → JsonValue
  | .clip d => .obj [("content", .str d.content)]
  | .history h => .obj [("history", .arr (h.map JsonValue.str))]
  | .devices ds => .obj [("devices", .arr (ds.map encodeClientInfoJson))]
  | .offer d =>
      .obj ([("filename", .str d.filename), ("filesize", .num d.filesize)] ++
        (if d.targetID = "" then [] else [("targetId", .str d.targetID)]))
  | .ack d =>
      .obj [("filename", .str d.filename), ("allow", .bool d.allow),
            ("sourceId", .str d.sourceID)]
  | .json v => v

/-! ### JSON decoding (json.Unmarshal) into the typed payload structs.
An absent object field leaves the Go zero value; a JSON null leaves the
field untouched; a type mismatch is an unmarshal error (`none`). -/

def lookupField (fields : List (String × JsonValue)) (key : String) :
    Option JsonValue :=
  (fields.find? (fun p => p.1 == key)).map Prod.snd

def fieldString (fields : List (String × JsonValue)) (key : String) :
    Option String :=
  match lookupField fields key with
  | none => some ""
  | some (.str s) => some s
  | some .null => some ""
  | some _ => none

def fieldBool (fields : List (String × JsonValue)) (key : String) :
    Option Bool :=
  match lookupField fields key with
  | none => some false
  | some (.bool b) => some b
  | some .null => some false
  | some _ => none

def fieldInt (fields : List (String × JsonValue)) (key : String) :
    Option Int :=
  match lookupField fields key with
  | none => some 0
  | some (.num n) => some n
  | some .null => some 0
  | some _ => none

def decodeClipboardUpdate : JsonValue → Option ClipboardUpdateData
  | .obj fields => (fieldString fields "content").map ClipboardUpdateData.mk
  | .null => some ⟨""⟩
  | _ => none

def decodeFileOffer : JsonValue → Option FileOfferData
  | .obj fields =>
      match fieldString fields "filename", fieldInt fields "filesize",
            fieldString fields "targetId" with
      | some f, some n, some t => some ⟨f, n, t⟩
      | _, _, _ => none
  | .null => some ⟨"", 0, ""⟩
  | _ => none

def decodeFileAck : JsonValue → Option FileAckData
  | .obj fields =>
      match fieldString fields "filename", fieldBool fields "allow",
            fieldString fields "sourceId" with
      | some f, some a, some s => some ⟨f, a, s⟩
      | _, _, _ => none
  | .null => some ⟨"", false, ""⟩
  | _ => none

def decodeStringElem : JsonValue → Option String
  | .str s => some s
  | .null => some ""
  | _ => none

def decodeStringList : JsonValue → Option (List String)
  | .arr xs => xs.mapM decodeStringElem
  | .null => some []
  | _ => none

def decodeHistory : JsonValue → Option (List String)
  | .obj fields =>
      match lookupField fields "history" with
      | none => some []
      | some v => decodeStringList v
  | .null => some []
  | _ => none

def decodeClientInfoWire : JsonValue → Option ClientInfo
  | .obj fields =>
      match fieldString fields "id", fieldString fields "hostname" with
      | some i, some h => some ⟨i, 0, h⟩
      | _, _ => none
  | .null => some ⟨"", 0, ""⟩
  | _ => none

def decodeClientInfoList : JsonValue → Option (List ClientInfo)
  | .arr xs => xs.mapM decodeClientInfoWire
  | .null => some []
  | _ => none

def decodeDeviceList : JsonValue → Option (List ClientInfo)
  | .obj fields =>
      match lookupField fields "devices" with
      | none => some []
      | some v => decodeClientInfoList v
  | .null => some []
  | _ => none

/-! ### Broadcast router (runHub, part_002 lines 105-159) -/

/-- The per-recipient skip decision of the hub's broadcast case: `true`
means the `continue` path is taken and `clientID` does not receive the
message.  Faithful to part_002 lines 119-144: the sender skip applies only
to `clipboard_update`; the targeting rules for `file_ack` and `file_offer`
live in a type switch on the dynamic type of `message.Data`, so they apply
only when the payload is the typed struct — a payload that is still the
decoded wire value (`MsgData.json`) matches no case and is never skipped. -/
def hubSkips (message : BaseMessage) (clientID : String) : Bool :=
  if message.type == "clipboard_update" && clientID == message.senderID then
    true
  else
    match message.data with
    | .ack d => message.type == "file_ack" && clientID != d.sourceID
    | .offer d =>
        message.type == "file_offer" &&
          ((d.targetID != "" && clientID != d.targetID) ||
            clientID == message.senderID)
    | _ => false

/-- The ids of the registered clients to which the hub writes `message`
(the snapshot loop of runHub, minus the clients skipped by `hubSkips`). -/
def deliveredTo (registry : List ClientInfo) (message : BaseMessage) :
    List String :=
  (registry.filter (fun c => !(hubSkips message c.id))).map ClientInfo.id

/-! ### Registry mutation (runHub register/unregister cases) -/

/-- The register case (part_002 lines 85-90): map assignment
`clients[client.ID] = client`, replacing any entry under the same id. -/
def registerClient (clients : List ClientInfo) (client : ClientInfo) :
    List ClientInfo :=
  client :: clients.filter (fun c => !(c.id == client.id))

/-- The unregister case (part_002 lines 92-103).  Returns the new registry
and the list of connection handles closed by this call: the entry is
deleted and its connection closed only when the id is present and the
stored connection is the same handle as the requesting client's. -/
def unregisterClient (clients : List ClientInfo) (client : ClientInfo) :
    List ClientInfo × List Nat :=
  match clients.find? (fun c => c.id == client.id) with
  | some existingClient =>
      if existingClient.conn == client.conn then
        (clients.filter (fun c => !(c.id == client.id)), [client.conn])
      else
        (clients, [])
  | none => (clients, [])

/-- The `device_list` payload built by broadcastDeviceListUpdate and by the
request_devices case of readLoop: id and hostname only, no connection. -/
def deviceListPayload (clients : List ClientInfo) : List ClientInfo :=
  clients.map (fun c => ⟨c.id, 0, c.hostname⟩)

/-! ### Clipboard store (the clipboard_update case of readLoop,
part_002 lines 284-303) -/

structure ClipState where
  currentClip : String
  clipboardHistory : List String
deriving DecidableEq, Repr

def initialClipState : ClipState := ⟨"", []⟩

/-- The store update inlined in readLoop (part_002 lines 288-295), named
`setIfChanged` in the spec: when the content differs from `currentClip`,
set it, prepend it to the history and truncate the history to
`maxHistorySize`; otherwise do nothing.  Returns whether a change occurred
(the broadcast at line 298 happens exactly inside the changed branch). -/
def setIfChanged (s : ClipState) (content : String) : ClipState × Bool :=
  if s.currentClip ≠ content then
    let h := content :: s.clipboardHistory
    let h := if h.length > maxHistorySize then h.take maxHistorySize else h
    (⟨content, h⟩, true)
  else
    (s, false)

/-- The full clipboard_update case of readLoop: decode the wire payload,
update the store, and broadcast a message carrying the TYPED data struct
exactly when a change occurred. -/
def handleClipboardUpdateServer (s : ClipState) (senderID : String)
    (payload : JsonValue) : ClipState × List BaseMessage :=
  match decodeClipboardUpdate payload with
  | some d =>
      let r := setIfChanged s d.content
      if r.2 then (r.1, [⟨"clipboard_update", .clip d, senderID⟩])
      else (r.1, [])
  | none => (s, [])

/-- The file_offer case of readLoop (part_002 lines 316-323): the payload
is decoded into a typed struct only to be logged; the message sent to the
broadcast channel is the original `msg`, whose Data is still the untyped
decoded wire value. -/
def handleFileOfferServer (senderID : String) (payload : JsonValue) :
    Option BaseMessage :=
  match decodeFileOffer payload with
  | some _ => some ⟨"file_offer", .json payload, senderID⟩
  | none => none

/-- The file_ack case of readLoop (part_002 lines 325-332): as with
file_offer, the broadcasted message keeps the untyped wire payload. -/
def handleFileAckServer (senderID : String) (payload : JsonValue) :
    Option BaseMessage :=
  match decodeFileAck payload with
  | some _ => some ⟨"file_ack", .json payload, senderID⟩
  | none => none

/-! ### Admission (handleConnections, part_002 lines 194-245) -/

/-- The admission gate: reject when the query key differs from the
configured key, otherwise build the client record with a freshly assigned
id and the query hostname, defaulting to "Unknown" when the hostname query
parameter is empty or absent (Query().Get returns "" for an absent
parameter). -/
def admitClient (apiKey queryApiKey queryHostname freshID : String)
    (conn : Nat) : Option ClientInfo :=
  if queryApiKey ≠ apiKey then none
  else
    some ⟨freshID, conn,
      if queryHostname = "" then "Unknown" else queryHostname⟩

/-- The messages handleConnections writes to the new client directly after
registration and before entering its read loop (part_002 lines 220-238):
the current clip as clipboard_update when non-empty, then the history as
clipboard_history when non-empty.  These are a function of the store state
only — no inbound message (in particular no request_devices) is awaited. -/
def admissionMessages (s : ClipState) : List BaseMessage :=
  (if s.currentClip ≠ "" then
    [⟨"clipboard_update", .clip ⟨s.currentClip⟩, ""⟩]
   else []) ++
  (if s.clipboardHistory.length > 0 then
    [⟨"clipboard_history", .history s.clipboardHistory, ""⟩]
   else [])

/-! ### Client sync agent (src/unnamed/part_000 Update,
src/client_tui/websocket.go) -/

/-- Connection state of the client model (src/client_tui/state.go). -/
inductive ConnectionState where
  | Connecting
  | Connected
  | Disconnected
deriving DecidableEq, Repr

/-- The commands the client Update function (and Init) can issue.
`connect` stands for connectCmd; it is issued only by Model.Init — the
reconnect block in the ConnectionStatusMsg branch of Update is commented
out in the source. -/
inductive ClientCmd where
  | connect
  | spinnerTick
  | listenWebSocket
  | checkLocalClipboard (lastContent : String)
  | send (msg : BaseMessage)
  | writeClipboard (content : String)
  | scheduleClipboardCheck (lastSent : String)

/-- The app-logic state of the client Model (part_000 lines 32-66),
restricted to the fields the Update app-logic branches read or write.
`hasConn` models wsConn being non-nil, `hasCancel` models wsCtxCancel
being non-nil, `hasError` models lastError being non-nil. -/
structure ClientModel where
  connectedState : ConnectionState
  syncEnabled : Bool
  lastSentClip : String
  lastRcvdClip : String
  histItems : List String
  devicesMap : List (String × String)
  incomingFileOffer : Option FileOfferData
  offeringClientID : String
  hasConn : Bool
  hasCancel : Bool
  hasError : Bool

/-- The app-logic messages delivered to Update (src/client_tui/state.go):
ConnectionStatusMsg, ReceivedServerMsg, LocalClipboardCheckedMsg,
ErrorMsg, LogMsg. -/
inductive ClientMsg where
  | connectionStatus (status : ConnectionState) (hasConn : Bool)
      (hasErr : Bool)
  | receivedServer (msg : BaseMessage)
  | localClipboardChecked (content : String) (changed : Bool)
      (hasErr : Bool)
  | errorMsg
  | logMsg (s : String)

/-- Model.Init (part_000 lines 109-114): the only place a connect attempt
is issued. -/
def clientInit : List ClientCmd := [.spinnerTick, .connect]

/-- The result message of connectCmd (websocket.go lines 24-52): a dial
failure yields a Disconnected status carrying the error, never a process
exit; a successful dial yields Connected with the live connection. -/
def connectResult (dialOk : Bool) : ClientMsg :=
  if dialOk then .connectionStatus .Connected true false
  else .connectionStatus .Disconnected false true

/-- InsertItem at index 0 followed by RemoveItem of the last element when
the list exceeds maxHistorySize (part_000 lines 281-284). -/
def insertHistItem (items : List String) (content : String) :
    List String :=
  let items := content :: items
  if items.length > maxHistorySize then items.dropLast else items

/-- The ReceivedServerMsg branch of Update (part_000 lines 271-358).
RemarshalData is marshal-then-unmarshal, modelled by `encodeData` followed
by the typed decoder.  The clipboard_update case records the content as
lastRcvdClip, inserts it into the history display unconditionally, and
issues a writeToClipboardCmd only when sync is enabled and the content is
not an echo of lastSentClip. -/
def handleServerMessage (m : ClientModel) (serverMsg : BaseMessage) :
    ClientModel × List ClientCmd :=
  match serverMsg.type with
  | "clipboard_update" =>
      match decodeClipboardUpdate (encodeData serverMsg.data) with
      | some d =>
          let m1 := { m with
            lastRcvdClip := d.content,
            histItems := insertHistItem m.histItems d.content }
          if m1.syncEnabled && d.content != m1.lastSentClip then
            (m1, [.writeClipboard d.content])
          else
            (m1, [])
      | none => (m, [])
  | "clipboard_history" =>
      match decodeHistory (encodeData serverMsg.data) with
      | some h => ({ m with histItems := h }, [])
      | none => (m, [])
  | "device_list" =>
      match decodeDeviceList (encodeData serverMsg.data) with
      | some ds =>
          ({ m with devicesMap := ds.map (fun d => (d.id, d.hostname)) },
           [])
      | none => (m, [])
  | "file_offer" =>
      match decodeFileOffer (encodeData serverMsg.data) with
      | some d =>
          ({ m with incomingFileOffer := some d,
                    offeringClientID := serverMsg.senderID }, [])
      | none => (m, [])
  | "file_ack" => (m, [])
  | _ => (m, [])

/-- The app-logic portion of Model.Update (part_000 lines 239-391).

ConnectionStatusMsg (lines 240-269): on Connected with a live connection,
store it and start the listener, the clipboard poll and an initial
request_devices; otherwise cancel the background context, drop the
connection, and — the reconnect block being commented out in the source —
issue NO further command.

LocalClipboardCheckedMsg (lines 360-383): ignored unless Connected; an OS
clipboard read error returns early; otherwise a changed value that is not
an echo of lastRcvdClip is sent (when sync is enabled) and recorded as
lastSentClip, and the next poll is scheduled. -/
def clientUpdate (m : ClientModel) (msg : ClientMsg) :
    ClientModel × List ClientCmd :=
  match msg with
  | .connectionStatus status hasConn hasErr =>
      let m1 := { m with connectedState := status, hasError := hasErr }
      if status == .Connected && hasConn then
        ({ m1 with hasConn := true, hasCancel := true },
         [.listenWebSocket, .checkLocalClipboard m.lastSentClip,
          .send ⟨"request_devices", .json .null, ""⟩])
      else
        ({ m1 with hasCancel := false, hasConn := false }, [])
  | .receivedServer serverMsg => handleServerMessage m serverMsg
  | .localClipboardChecked content changed hasErr =>
      if m.connectedState ≠ .Connected then (m, [])
      else if hasErr then (m, [])
      else
        if m.syncEnabled && changed && content != m.lastRcvdClip then
          let m1 := { m with lastSentClip := content }
          (m1, [.send ⟨"clipboard_update", .clip ⟨content⟩, ""⟩,
                .scheduleClipboardCheck m1.lastSentClip])
        else
          (m, [.scheduleClipboardCheck m.lastSentClip])
  | .errorMsg => ({ m with hasError := true }, [])
  | .logMsg _ => (m, [])

/-! ### Derived definitions used by the verification -/

/-- A sequence of clipboard_update contents applied to the store in
arrival order (the single-writer discipline of readLoop under
clipboardLock). -/
def applyUpdates (s : ClipState) (updates : List String) : ClipState :=
  updates.foldl (fun t c => (setIfChanged t c).1) s

/-- The spec invariant on the clipboard store: whenever `current` is
non-empty the head of the history equals it, and the history never
exceeds maxHistorySize entries. -/
def ClipInv (s : ClipState) : Prop :=
  (s.currentClip ≠ "" → s.clipboardHistory.head? = some s.currentClip) ∧
  s.clipboardHistory.length ≤ maxHistorySize

/-! Concrete devices and wire payloads used as test inputs. -/

def clientA : ClientInfo := ⟨"A", 1, "hostA"⟩

def clientB : ClientInfo := ⟨"B", 2, "hostB"⟩

def clientC : ClientInfo := ⟨"C", 3, "hostC"⟩

/-- The wire payload of a file_ack with sourceId "A", as decoded by
json.Unmarshal into an untyped interface value. -/
def ackPayload : JsonValue :=
  .obj [("filename", .str "x.txt"), ("allow", .bool true),
        ("sourceId", .str "A")]

/-- The wire payload of a file_offer targeted at device "B". -/
def offerPayload : JsonValue :=
  .obj [("filename", .str "x.txt"), ("filesize", .num 100),
        ("targetId", .str "B")]

/-- A connected client model with sync toggled OFF whose last sent clip
was "a". -/
def syncOffModel : ClientModel :=
  ⟨.Connected, false, "a", "", [], [], none, "", true, true, false⟩

/-- A connected client model with sync enabled. -/
def connectedModel : ClientModel :=
  ⟨.Connected, true, "", "", [], [], none, "", true, true, false⟩

/-! ## Theorems -/

theorem setIfChanged_currentClip (s : ClipState) (x : String) :
    ((setIfChanged s x).1).currentClip = x := by
  unfold setIfChanged
  split
  · rfl
  · rename_i h
    exact not_ne_iff.mp h

theorem setIfChanged_self (t : ClipState) (x : String)
    (h : t.currentClip = x) : setIfChanged t x = (t, false) := by
  unfold setIfChanged
  rw [if_neg (not_ne_iff.mpr h)]

theorem setIfChanged_inv (s : ClipState) (c : String) (h : ClipInv s) :
    ClipInv ((setIfChanged s c).1) := by
  unfold ClipInv setIfChanged
  split
  · dsimp only
    constructor
    · intro _
      split
      · rfl
      · rfl
    · split
      · rw [List.length_take]
        exact min_le_left _ _
      · rename_i hle
        exact Nat.le_of_not_lt hle
  · exact h

theorem initial_clipInv : ClipInv initialClipState := by
  constructor
  · intro h
    exact absurd rfl h
  · simp [initialClipState, maxHistorySize]

theorem applyUpdates_inv (updates : List String) :
    ∀ s : ClipState, ClipInv s → ClipInv (applyUpdates s updates) := by
  induction updates with
  | nil => exact fun s h => h
  | cons u us ih => exact fun s h => ih _ (setIfChanged_inv s u h)

/-- Claim C4: for every sequence of clipboard updates applied to the
server store from its initial state, after each applied update the head
of the history equals `current` whenever `current` is non-empty and the
history length never exceeds 20; moreover an applying (changing) update
installs the new content at the front and truncates to the bound,
evicting the oldest entries. -/
theorem clipboard_store_invariant :
    (∀ updates : List String,
      ClipInv (applyUpdates initialClipState updates)) ∧
    (∀ (s : ClipState) (c : String), (setIfChanged s c).2 = true →
      ((setIfChanged s c).1).clipboardHistory =
        (c :: s.clipboardHistory).take maxHistorySize) := by
  constructor
  · intro updates
    exact applyUpdates_inv updates initialClipState initial_clipInv
  · intro s c hch
    unfold setIfChanged at hch ⊢
    split at hch
    · rename_i hne
      rw [if_pos hne]
      dsimp only
      split
      · rfl
      · rename_i hle
        exact (List.take_of_length_le (Nat.le_of_not_lt hle)).symm
    · simp at hch

/-- Witness for C4 at the concrete update sequence ["a"]. -/
theorem clipboard_store_invariant_witness :
    ClipInv (applyUpdates initialClipState ["a"]) ∧
    ((setIfChanged initialClipState "a").1).clipboardHistory =
      ("a" :: initialClipState.clipboardHistory).take maxHistorySize :=
  ⟨clipboard_store_invariant.1 ["a"],
   clipboard_store_invariant.2 initialClipState "a" (by decide)⟩

/-- Claim C9: a second setIfChanged with the same value is a no-op that
reports changed = false, and the readLoop clipboard_update handler
broadcasts nothing on that second call. -/
theorem setIfChanged_idempotent :
    ∀ (s : ClipState) (x senderID : String),
      setIfChanged (setIfChanged s x).1 x = ((setIfChanged s x).1, false) ∧
      (handleClipboardUpdateServer (setIfChanged s x).1 senderID
        (.obj [("content", .str x)])).2 = [] := by
  intro s x sid
  have hcur := setIfChanged_currentClip s x
  have hid := setIfChanged_self (setIfChanged s x).1 x hcur
  refine ⟨hid, ?_⟩
  have hdec : decodeClipboardUpdate (.obj [("content", .str x)]) =
      some ⟨x⟩ := rfl
  unfold handleClipboardUpdateServer
  rw [hdec]
  dsimp only
  rw [hid]
  simp

/-- Claim C5: a clipboard_update carrying senderId S is never delivered
back to the connection whose id is S, for any registry membership and any
payload. -/
theorem clipboard_update_no_echo :
    ∀ (registry : List ClientInfo) (S : String) (d : MsgData),
      S ∉ deliveredTo registry ⟨"clipboard_update", d, S⟩ := by
  intro registry S d hmem
  simp only [deliveredTo, List.mem_map] at hmem
  obtain ⟨c, hc, hid⟩ := hmem
  rw [List.mem_filter] at hc
  have h2 := hc.2
  rw [hid] at h2
  simp [hubSkips] at h2

/-- Witness for C5 at a concrete two-device registry. -/
theorem clipboard_update_no_echo_witness :
    "A" ∉ deliveredTo [clientA, clientB]
      ⟨"clipboard_update", .clip ⟨"hello"⟩, "A"⟩ :=
  clipboard_update_no_echo [clientA, clientB] "A" (.clip ⟨"hello"⟩)

/-- Claim C7: removing the same id twice (the unregister requests are
serialized by the hub loop, so two concurrent failure-path requests arrive
in sequence) closes the underlying connection exactly once; the second
call finds no entry under the id, closes nothing, changes nothing, and has
no error path. -/
theorem remove_twice_closes_once :
    ∀ (clients : List ClientInfo) (client ex : ClientInfo),
      clients.find? (fun c => c.id == client.id) = some ex →
      ex.conn = client.conn →
      (unregisterClient clients client).2 = [client.conn] ∧
      unregisterClient (unregisterClient clients client).1 client =
        ((unregisterClient clients client).1, []) := by
  intro clients client ex hfind hconn
  have h1 : unregisterClient clients client =
      (clients.filter (fun c => !(c.id == client.id)), [client.conn]) := by
    unfold unregisterClient
    rw [hfind]
    simp [hconn]
  refine ⟨by rw [h1], ?_⟩
  rw [h1]
  unfold unregisterClient
  have hnone : (clients.filter (fun c => !(c.id == client.id))).find?
      (fun c => c.id == client.id) = none := by
    rw [List.find?_eq_none]
    intro c hcmem
    rw [List.mem_filter] at hcmem
    simpa using hcmem.2
  rw [hnone]

/-- Witness for C7: a singleton registry, removing device "A" twice. -/
theorem remove_twice_closes_once_witness :
    (unregisterClient [clientA] clientA).2 = [clientA.conn] ∧
    unregisterClient (unregisterClient [clientA] clientA).1 clientA =
      ((unregisterClient [clientA] clientA).1, []) :=
  remove_twice_closes_once [clientA] clientA clientA rfl rfl

/-- Claim C10: a client presenting the correct key but an empty (or
absent) hostname query parameter is admitted with display hostname
"Unknown", and the device_list payload built from the updated registry
lists it under "Unknown". -/
theorem empty_hostname_unknown :
    ∀ (apiKey freshID : String) (conn : Nat) (registry : List ClientInfo),
      admitClient apiKey apiKey "" freshID conn =
        some ⟨freshID, conn, "Unknown"⟩ ∧
      (⟨freshID, 0, "Unknown"⟩ : ClientInfo) ∈
        deviceListPayload
          (registerClient registry ⟨freshID, conn, "Unknown"⟩) := by
  intro k fid conn reg
  constructor
  · unfold admitClient
    simp
  · unfold deviceListPayload registerClient
    exact List.mem_map.mpr ⟨⟨fid, conn, "Unknown"⟩, List.mem_cons_self _ _, rfl⟩

/-- Counterexample for C8 as stated: on admission at the initial store
state (empty current, empty history — the state of a fresh server), the
server sends nothing at all, in particular no clipboard_history message,
whereas the claim asserts the full history is always sent. -/
theorem admission_empty_history_cex :
    admissionMessages initialClipState = [] ∧
    ¬ ∃ msg ∈ admissionMessages initialClipState,
        msg.type = "clipboard_history" := by
  constructor
  · rfl
  · rintro ⟨msg, hm, _⟩
    rw [show admissionMessages initialClipState = [] from rfl] at hm
    exact List.not_mem_nil msg hm

/-- Claim C8 (amended): on every successful admission the server
proactively sends, in order, the current clip as clipboard_update if
non-empty, then the full history as clipboard_history if the history is
non-empty, as a function of the store state alone (no request_devices is
awaited). -/
theorem admission_messages_amended :
    ∀ s : ClipState,
      (s.clipboardHistory ≠ [] →
        admissionMessages s =
          (if s.currentClip = "" then []
           else [⟨"clipboard_update", .clip ⟨s.currentClip⟩, ""⟩]) ++
          [⟨"clipboard_history", .history s.clipboardHistory, ""⟩]) ∧
      (s.clipboardHistory = [] →
        admissionMessages s =
          (if s.currentClip = "" then []
           else [⟨"clipboard_update", .clip ⟨s.currentClip⟩, ""⟩])) := by
  intro s
  constructor
  · intro hne
    have hlen : 0 < s.clipboardHistory.length := List.length_pos.mpr hne
    rcases eq_or_ne s.currentClip "" with hc | hc <;>
      simp [admissionMessages, hc, hlen]
  · intro he
    rcases eq_or_ne s.currentClip "" with hc | hc <;>
      simp [admissionMessages, hc, he]

/-- Witness for C8 (amended) at the store state current = "a",
history = ["a"]. -/
theorem admission_messages_amended_witness :
    admissionMessages ⟨"a", ["a"]⟩ =
      (if ("a" : String) = "" then []
       else [⟨"clipboard_update", .clip ⟨"a"⟩, ""⟩]) ++
      [⟨"clipboard_history", .history ["a"], ""⟩] :=
  (admission_messages_amended ⟨"a", ["a"]⟩).1 (by decide)

theorem insertHistItem_head (items : List String) (c : String) :
    (insertHistItem items c).head? = some c := by
  unfold insertHistItem
  dsimp only
  split
  · rename_i h
    cases items with
    | nil => simp [maxHistorySize] at h
    | cons a as => rfl
  · rfl

theorem handleServerMessage_clip (m : ClientModel) (dta : MsgData)
    (senderID : String) (d : ClipboardUpdateData)
    (hdec : decodeClipboardUpdate (encodeData dta) = some d) :
    handleServerMessage m ⟨"clipboard_update", dta, senderID⟩ =
      (let m1 := { m with
          lastRcvdClip := d.content,
          histItems := insertHistItem m.histItems d.content };
       if m.syncEnabled && d.content != m.lastSentClip then
         (m1, [.writeClipboard d.content])
       else (m1, [])) := by
  unfold handleServerMessage
  simp only [hdec]

/-- Counterexample for C6 as stated: a connected client with sync toggled
off receives a clipboard_update "b" differing from its lastSent "a"; the
code issues no clipboard write command, whereas the claim says a content
differing from lastSent is applied to the OS clipboard. -/
theorem clipboard_write_requires_sync_cex :
    ("b" : String) ≠ syncOffModel.lastSentClip ∧
    (clientUpdate syncOffModel
      (.receivedServer
        ⟨"clipboard_update", .json (.obj [("content", .str "b")]), ""⟩)).2
      = [] := by
  constructor
  · decide
  · rfl

/-- Claim C6 (amended): for every inbound clipboard_update, the content is
inserted at the head of the history display; if it equals lastSent no
command is issued (in particular nothing is written to the OS clipboard);
if it differs from lastSent AND sync is enabled, a clipboard write of that
content is issued. -/
theorem clipboard_update_client_amended :
    ∀ (m : ClientModel) (v : JsonValue) (senderID : String)
      (d : ClipboardUpdateData),
      decodeClipboardUpdate v = some d →
      ((clientUpdate m
        (.receivedServer ⟨"clipboard_update", .json v, senderID⟩)).1.histItems.head?
          = some d.content) ∧
      (d.content = m.lastSentClip →
        (clientUpdate m
          (.receivedServer ⟨"clipboard_update", .json v, senderID⟩)).2 = []) ∧
      (d.content ≠ m.lastSentClip → m.syncEnabled = true →
        (clientUpdate m
          (.receivedServer ⟨"clipboard_update", .json v, senderID⟩)).2
          = [.writeClipboard d.content]) := by
  intro m v sid d hdec
  have e : clientUpdate m (.receivedServer ⟨"clipboard_update", .json v, sid⟩)
      = handleServerMessage m ⟨"clipboard_update", .json v, sid⟩ := rfl
  have hdec2 : decodeClipboardUpdate (encodeData (.json v)) = some d := hdec
  rw [e, handleServerMessage_clip m (.json v) sid d hdec2]
  dsimp only
  refine ⟨?_, ?_, ?_⟩
  · split
    · exact insertHistItem_head m.histItems d.content
    · exact insertHistItem_head m.histItems d.content
  · intro heq
    rw [heq]
    simp
  · intro hne hsync
    simp [hsync, hne]

/-- Witness for C6 (amended): sync enabled, lastSent "a", inbound content
"b" — the write command is issued. -/
theorem clipboard_update_client_amended_witness :
    (clientUpdate ⟨.Connected, true, "a", "", [], [], none, "", true, true,
        false⟩
      (.receivedServer ⟨"clipboard_update",
        .json (.obj [("content", .str "b")]), ""⟩)).2
      = [.writeClipboard "b"] :=
  (clipboard_update_client_amended
    ⟨.Connected, true, "a", "", [], [], none, "", true, true, false⟩
    (.obj [("content", .str "b")]) "" ⟨"b"⟩ rfl).2.2 (by decide) rfl

/-- Had the broadcasted file_ack carried the typed FileAckData struct, the
hub's type switch would deliver it exactly to the device whose id equals
sourceId — the routing the in-code comments describe. -/
theorem fileAck_typed_routing :
    deliveredTo [clientA, clientB]
      ⟨"file_ack", .ack ⟨"x.txt", true, "A"⟩, "B"⟩ = ["A"] := rfl

/-- Had the broadcasted file_offer carried the typed FileOfferData struct,
the hub's type switch would deliver a targeted offer exactly to the
target, excluding the sender. -/
theorem fileOffer_typed_routing :
    deliveredTo [clientA, clientB, clientC]
      ⟨"file_offer", .offer ⟨"x.txt", 100, "B"⟩, "A"⟩ = ["B"] := rfl

/-- Claim C1 (code-bug evidence): device B relays a file_ack whose
sourceId is A.  readLoop broadcasts the message with its payload still the
untyped decoded wire value, so the hub's FileAckData type-switch case
never matches and the message is delivered to BOTH registered devices A
and B instead of to A alone. -/
theorem fileAck_routing_code_bug :
    handleFileAckServer "B" ackPayload =
      some ⟨"file_ack", .json ackPayload, "B"⟩ ∧
    deliveredTo [clientA, clientB] ⟨"file_ack", .json ackPayload, "B"⟩ =
      ["A", "B"] := by
  exact ⟨rfl, rfl⟩

/-- Claim C2 (code-bug evidence): device A sends a file_offer targeted at
B with C also registered.  The broadcast keeps the untyped wire payload,
the FileOfferData type-switch case never matches, and the offer is
delivered to A (the sender), B and C instead of to B alone. -/
theorem fileOffer_routing_code_bug :
    handleFileOfferServer "A" offerPayload =
      some ⟨"file_offer", .json offerPayload, "A"⟩ ∧
    deliveredTo [clientA, clientB, clientC]
      ⟨"file_offer", .json offerPayload, "A"⟩ = ["A", "B", "C"] := by
  exact ⟨rfl, rfl⟩

/-- Claim C3 (code-bug evidence): on a dial failure the client Update
function moves to Disconnected, cancels the background context and drops
the connection, but issues NO command at all — and no app-logic message
whatsoever ever produces a connect command (the reconnect block is
commented out in the source; connectCmd is reachable only from Init), so
the agent stays Disconnected permanently. -/
theorem reconnect_missing_code_bug :
    ((clientUpdate connectedModel (connectResult false)).1.connectedState
        = .Disconnected ∧
      (clientUpdate connectedModel (connectResult false)).1.hasCancel
        = false ∧
      (clientUpdate connectedModel (connectResult false)).1.hasConn
        = false ∧
      (clientUpdate connectedModel (connectResult false)).2 = []) ∧
    (ClientCmd.connect ∈ clientInit ∧
      ∀ (m : ClientModel) (msg : ClientMsg),
        ClientCmd.connect ∉ (clientUpdate m msg).2) := by
  refine ⟨⟨rfl, rfl, rfl, rfl⟩, by simp [clientInit], ?_⟩
  intro m msg
  cases msg with
  | connectionStatus st hc he =>
      dsimp only [clientUpdate]
      split <;> simp
  | receivedServer sm =>
      show ClientCmd.connect ∉ (handleServerMessage m sm).2
      unfold handleServerMessage
      repeat' split
      all_goals simp
      all_goals (split <;> simp)
  | localClipboardChecked c ch he =>
      dsimp only [clientUpdate]
      repeat' split
      all_goals simp
  | errorMsg => simp [clientUpdate]
  | logMsg s => simp [clientUpdate]

/-- Witness for C3's universally quantified part at the dial-failure
message on a concrete connected model. -/
theorem reconnect_missing_code_bug_witness :
    ClientCmd.connect ∉
      (clientUpdate connectedModel (connectResult false)).2 :=
  reconnect_missing_code_bug.2.2 connectedModel (connectResult false)

end Clipd
